import Mathlib

/-!
Verification development for `python_frank_energie/frank_energie.py`, a GraphQL
client for the FrankEnergie energy-data API.  The definitions below are a
shallow embedding of that module: Python dicts become association lists,
exceptions become an explicit `PyExc` type threaded through `Except`, and the
HTTP transport is an external input (`TransportOutcome`).  Statements about the
request pipeline, the GraphQL error classifier, the authentication guards, the
header composition, the query redaction helper, the session-ownership rule and
the date-validation helpers follow the definitions.
-/

/-! ## Python-value helpers -/

/-- Truthiness of an optional string in Python (`None` and `""` are falsy). -/
def pyTruthyOptStr : Option String → Bool
  | none => false
  | some s => !(s == "")

/-- Python `str.startswith`, expressed on the underlying character lists. -/
def startswith (m pre : String) : Bool := pre.data.isPrefixOf m.data

/-- Lookup in a Python dict modelled as an association list (first match wins;
the dicts built here never repeat a key). -/
def dictGet {β : Type} : List (String × β) → String → Option β
  | [], _ => none
  | kv :: rest, k => if kv.1 = k then some kv.2 else dictGet rest k

/-- Python `d[k] = v`: replace the value at an existing key, else append. -/
def dictSet {β : Type} : List (String × β) → String → β → List (String × β)
  | [], k, v => [(k, v)]
  | kv :: rest, k, v => if kv.1 = k then (k, v) :: rest else kv :: dictSet rest k v

/-- Python `k in d`. -/
def dictHasKey {β : Type} (d : List (String × β)) (k : String) : Bool :=
  (dictGet d k).isSome

/-- The JSON values the client inspects in response envelopes. -/
inductive JValue where
  | null
  | str (s : String)
  | num (n : Int)
  | list (xs : List JValue)
  | obj (fields : List (String × JValue))

/-- Python truthiness of a JSON value (`None`, `""`, `0`, `[]`, `{}` are falsy). -/
def jFalsy : JValue → Bool
  | .null => true
  | .str s => s == ""
  | .num n => n == 0
  | .list xs => xs.isEmpty
  | .obj fields => fields.isEmpty

/-- Python `(dict-valued JSON).get(k)`; `None` on a non-dict (the API always
returns an object where the client indexes one). -/
def objGet (v : JValue) (k : String) : Option JValue :=
  match v with
  | .obj fields => dictGet fields k
  | _ => none

/-! ## Exceptions

`exceptions.py` is not part of the extracted source; only the exception kinds
and the messages the client attaches are needed here.  The transport-level
exception classes mirror `aiohttp`: `clientResponseError` is the exception
raised by `resp.raise_for_status()` for a non-2xx status, and it is a subclass
of `aiohttp.ClientError` (`clientConnectionError` stands for the other,
non-response `ClientError`s).  `networkError` carries its `from error` cause,
modelling `NetworkError(f"Request failed: {error}")`. -/

inductive PyExc where
  | timeoutError
  | clientConnectionError
  | clientResponseError (status : Nat)
  | keyError
  | typeError
  | valueError (msg : String)
  | authException (msg : String)
  | authRequiredException (msg : String)
  | requestException (msg : String)
  | smartTradingNotEnabledException (msg : String)
  | smartChargingNotEnabledException (msg : String)
  | networkError (cause : PyExc)
deriving DecidableEq

/-! ## Response envelopes -/

/-- One entry of the GraphQL `errors` array.  `message` is `none` when the
entry has no `"message"` key (so `error["message"]` raises `KeyError`). -/
structure ErrorEntry where
  message : Option String
  path : Option (List String)
deriving DecidableEq

/-- The parsed JSON response body.  `data`/`errors` are `none` when the key is
absent; `extraKeys` records whether the dict has any further keys, so that
Python's `if not response` (empty-dict) test is expressible. -/
structure Envelope where
  data : Option JValue
  errors : Option (List ErrorEntry)
  extraKeys : Bool

/-- Python `bool(response)` for the response dict. -/
def pyNonEmpty (e : Envelope) : Bool :=
  e.data.isSome || e.errors.isSome || e.extraKeys

/-! ## Query builder and redaction (`FrankEnergieQuery`, `sanitize_query`) -/

/-- A GraphQL query: query text, operation name and a variables dict.  The
constructor-time type check (`variables` must be a dict) and the default to an
empty dict are enforced by the type.  Variable values are optional strings
(`none` models Python `None`, as in `{"siteReference": None}`). -/
structure FrankEnergieQuery where
  query : String
  operation_name : String
  vars : List (String × Option String)
deriving DecidableEq

/-- The dict produced by `FrankEnergieQuery.to_dict`.  In Python the
`"variables"` entry is the very same dict object as `self.variables` (the
method copies the reference, not the dict); mutation through one is visible
through the other.  The embedding keeps that aliasing explicit in
`sanitize_query` below. -/
structure QueryDict where
  query : String
  operationName : String
  vars : List (String × Option String)
deriving DecidableEq

def FrankEnergieQuery.to_dict (q : FrankEnergieQuery) : QueryDict :=
  { query := q.query, operationName := q.operation_name, vars := q.vars }

/-- `sanitize_query`: build `query.to_dict()`, and if the variables contain a
`"password"` key overwrite it with `"****"`.  Because `to_dict` aliases
`self.variables`, the item assignment
`sanitized_query["variables"]["password"] = "****"` mutates the query object's
own variables as well; the result pairs the returned dict with the
post-mutation query object. -/
def sanitize_query (q : FrankEnergieQuery) : QueryDict × FrankEnergieQuery :=
  let sanitized_query := q.to_dict
  if dictHasKey sanitized_query.vars "password" then
    let newVars := dictSet sanitized_query.vars "password" (some "****")
    ({ sanitized_query with vars := newVars }, { q with vars := newVars })
  else (sanitized_query, q)

/-! ## Client state (`FrankEnergie.__init__`, authentication, session) -/

/-- An `aiohttp.ClientSession`; the client never inspects it, it only stores,
creates and closes it. -/
structure ClientSession where
  mkSession ::
deriving DecidableEq

/-- The `Authentication` credential holder (external module): an optional
access token and an optional refresh token. -/
structure Authentication where
  authToken : Option String
  refreshToken : Option String
deriving DecidableEq

/-- The mutable state of a `FrankEnergie` client instance. -/
structure FrankEnergie where
  _session : Option ClientSession
  _close_session : Bool
  _auth : Option Authentication
deriving DecidableEq

/-- `FrankEnergie.__init__`: store the supplied session (owning it for closing
iff none was supplied) and build an `Authentication` iff either token argument
is truthy. -/
def FrankEnergie.init (clientsession : Option ClientSession)
    (auth_token refresh_token : Option String) : FrankEnergie :=
  { _session := clientsession
    _close_session := clientsession.isNone
    _auth :=
      if pyTruthyOptStr auth_token || pyTruthyOptStr refresh_token then
        some { authToken := auth_token, refreshToken := refresh_token }
      else none }

/-- `is_authenticated`: `self._auth is not None and self._auth.authToken is not
None`. -/
def FrankEnergie.is_authenticated (c : FrankEnergie) : Bool :=
  match c._auth with
  | none => false
  | some a => a.authToken.isSome

/-- `_ensure_session`: lazily create a session and mark it owned. -/
def FrankEnergie.ensure_session (c : FrankEnergie) : FrankEnergie :=
  if c._session.isNone then { c with _session := some ⟨⟩, _close_session := true } else c

/-- Modelled from the spec: the `close` method invoked by `__aexit__` is not in
the extracted source (only its caller is).  Per the spec's resource-ownership
rule, on explicit shutdown the client closes the transport session iff the
session was created internally (the caller supplied none), which the client
records in `_close_session`.  The boolean result reports whether the underlying
session's `close()` was called. -/
def FrankEnergie.close (c : FrankEnergie) : FrankEnergie × Bool :=
  if c._close_session && c._session.isSome then
    ({ c with _session := none }, true)
  else (c, false)

/-- `__aexit__`: `await self.close()`. -/
def FrankEnergie.aexit (c : FrankEnergie) : FrankEnergie × Bool :=
  c.close

/-! ## Header composition (`_query`, lines 153-159) -/

/-- The headers dict before the `extra_headers` update: the two fixed JSON
headers, then `Authorization: Bearer <token>` iff an access token is
present. -/
def baseAndAuthHeaders (auth : Option Authentication) : List (String × String) :=
  let headers := [("Content-Type", "application/json"), ("Accept", "application/json")]
  match auth with
  | some a =>
    match a.authToken with
    | some tok => dictSet headers "Authorization" ("Bearer " ++ tok)
    | none => headers
  | none => headers

/-- Compose the request headers of `_query`: the base and bearer headers, then
`headers.update(extra_headers)` when `extra_headers` is truthy (each entry of
the update overrides a same-named header). -/
def composeHeaders (auth : Option Authentication)
    (extra : Option (List (String × String))) : List (String × String) :=
  let headers := baseAndAuthHeaders auth
  match extra with
  | none => headers
  | some ex =>
    if ex.isEmpty then headers
    else ex.foldl (fun acc kv => dictSet acc kv.1 kv.2) headers

/-- The binding a sequence of `d[k] = v` updates leaves for `k`: the last pair
in the list with that key. -/
def lastGet : List (String × String) → String → Option String
  | [], _ => none
  | kv :: rest, k =>
    match lastGet rest k with
    | some v => some v
    | none => if kv.1 = k then some kv.2 else none

/-- Whether the optional `extra_headers` argument binds key `k`. -/
def extraBinds (extra : Option (List (String × String))) (k : String) : Bool :=
  match extra with
  | none => false
  | some ex => (lastGet ex k).isSome

/-! ## Error classifier (`_handle_errors`) -/

/-- What one `elif` arm of the classifier does with a message: raise, `return`
from the whole function, or fall through to the next array entry. -/
inductive StepAction where
  | raiseExc (e : PyExc)
  | earlyReturn
  | continueLoop
deriving DecidableEq

/-- The `elif` chain of `_handle_errors`, in source order. -/
def classifyMessage (message : String) : StepAction :=
  if message = "user-error:password-invalid" then
    .raiseExc (.authException "Invalid password")
  else if message = "user-error:auth-not-authorised" then
    .raiseExc (.authException "Not authorized")
  else if message = "user-error:auth-required" then
    .raiseExc (.authRequiredException "Authentication required")
  else if message = "Graphql validation error" then
    .raiseExc (.authException "Request failed: Graphql validation error")
  else if startswith message "No marketprices found for segment" then
    .earlyReturn
  else if startswith message "No connections found for user" then
    .raiseExc (.authException ("Request failed: " ++ message))
  else if message = "user-error:smart-trading-not-enabled" then
    .raiseExc (.smartTradingNotEnabledException "Smart trading is not enabled for this user.")
  else if message = "user-error:smart-charging-not-enabled" then
    .raiseExc (.smartChargingNotEnabledException "Smart charging is not enabled for this user.")
  else if message = "'Base' niet aanwezig in prijzen verzameling" then
    .continueLoop
  else if message = "request-error:request-not-supported-in-country" then
    .raiseExc (.authException "Request not supported in the user's country")
  else
    .continueLoop

/-- Outcome of running `_handle_errors`: it either raises or returns. -/
inductive HandleResult where
  | raises (e : PyExc)
  | returnsNormally
deriving DecidableEq

/-- The `for error in errors` loop.  `error["message"]` on an entry without a
`"message"` key raises `KeyError`. -/
def handleLoop : List ErrorEntry → HandleResult
  | [] => .returnsNormally
  | e :: rest =>
    match e.message with
    | none => .raises .keyError
    | some m =>
      match classifyMessage m with
      | .raiseExc exc => .raises exc
      | .earlyReturn => .returnsNormally
      | .continueLoop => handleLoop rest

/-- `_handle_errors`: no-op on a falsy response or a falsy `errors` value,
otherwise classify the entries in array order. -/
def _handle_errors (response : Envelope) : HandleResult :=
  if !(pyNonEmpty response) then .returnsNormally
  else
    match response.errors with
    | none => .returnsNormally
    | some errs => if errs.isEmpty then .returnsNormally else handleLoop errs

/-! ## Request pipeline (`_query`) -/

/-- Whether an exception is caught by the first handler,
`except (asyncio.TimeoutError, ClientError, KeyError)`.  Note that
`aiohttp.ClientResponseError` is a subclass of `aiohttp.ClientError`, so it
matches this tuple. -/
def inFirstExceptTuple : PyExc → Bool
  | .timeoutError => true
  | .clientConnectionError => true
  | .clientResponseError _ => true
  | .keyError => true
  | _ => false

/-- The per-status mapping in the `except aiohttp.ClientResponseError` handler.
The fallback message models `f"Unexpected response: {error}"`, which carries
the status detail. -/
def mapResponseStatus (s : Nat) : PyExc :=
  if s = 401 then .authRequiredException "Authentication required."
  else if s = 403 then .authException "Forbidden: Invalid credentials."
  else if s = 400 then .requestException "Bad request: Invalid query."
  else if s = 500 then .authException "Internal server error."
  else .authException ("Unexpected response: status " ++ toString s)

/-- The `except` clauses of `_query`, tried in source order: the first tuple
re-raises as `NetworkError`, the `ClientResponseError` handler maps the HTTP
status (unreachable, because the first tuple already matches every
`ClientResponseError`), and the final `except Exception` re-raises unchanged. -/
def translateRaised (e : PyExc) : PyExc :=
  if inFirstExceptTuple e then .networkError e
  else
    match e with
    | .clientResponseError s => mapResponseStatus s
    | _ => e

/-- What the transport did for one POST: either some stage up to and including
JSON parsing raised (timeout, connection failure, `raise_for_status`,
`resp.json()`), or a 2xx response produced a parsed body. -/
inductive TransportOutcome where
  | raised (e : PyExc)
  | body (response : Envelope)

/-- The body of `_query` from the POST onward: an empty parsed body returns
`{}` immediately, otherwise the classifier runs and may raise; every raise is
funnelled through the `except` clauses. -/
def runQuery (outcome : TransportOutcome) : Except PyExc Envelope :=
  match outcome with
  | .raised e => .error (translateRaised e)
  | .body response =>
    if !(pyNonEmpty response) then .ok { data := none, errors := none, extraKeys := false }
    else
      match _handle_errors response with
      | .raises e => .error (translateRaised e)
      | .returnsNormally => .ok response

/-! ## Per-operation precondition guards

Each operation method begins with precondition checks that run before the
query is built and before any network call; each guard function below is the
literal translation of that prefix.  Operations whose prefix takes arguments
into account receive those arguments. -/

/-- What an operation's precondition prefix does before any network call. -/
inductive PreflightResult where
  | raiseAuthRequired (msg : Option String)
  | raiseValueError (msg : String)
  | returnEmptyDict
  | proceed
deriving DecidableEq

/-- `renew_token`: `if self._auth is None or not self.is_authenticated`. -/
def renew_token_guard (c : FrankEnergie) : PreflightResult :=
  if c._auth.isNone || !c.is_authenticated then
    .raiseAuthRequired (some "Authentication is required.")
  else .proceed

/-- `meter_readings`: same full-authentication check as `renew_token`. -/
def meter_readings_guard (c : FrankEnergie) : PreflightResult :=
  if c._auth.isNone || !c.is_authenticated then
    .raiseAuthRequired (some "Authentication is required.")
  else .proceed

/-- `month_summary`: same full-authentication check. -/
def month_summary_guard (c : FrankEnergie) : PreflightResult :=
  if c._auth.isNone || !c.is_authenticated then
    .raiseAuthRequired (some "Authentication is required.")
  else .proceed

/-- `invoices`: same full-authentication check. -/
def invoices_guard (c : FrankEnergie) : PreflightResult :=
  if c._auth.isNone || !c.is_authenticated then
    .raiseAuthRequired (some "Authentication is required.")
  else .proceed

/-- `enode_chargers`: the same full-authentication test, but it returns `{}`
instead of raising. -/
def enode_chargers_guard (c : FrankEnergie) : PreflightResult :=
  if c._auth.isNone || !c.is_authenticated then .returnEmptyDict
  else .proceed

/-- `me`: only `if self._auth is None: raise AuthRequiredException` (bare
raise, no message; the access token is not checked). -/
def me_guard (c : FrankEnergie) : PreflightResult :=
  if c._auth.isNone then .raiseAuthRequired none else .proceed

/-- `UserSites`: only checks `self._auth is None`. -/
def UserSites_guard (c : FrankEnergie) : PreflightResult :=
  if c._auth.isNone then .raiseAuthRequired none else .proceed

/-- `user_country`: only checks `self._auth is None`. -/
def user_country_guard (c : FrankEnergie) : PreflightResult :=
  if c._auth.isNone then .raiseAuthRequired none else .proceed

/-- `user`: only checks `self._auth is None`. -/
def user_guard (c : FrankEnergie) : PreflightResult :=
  if c._auth.isNone then .raiseAuthRequired none else .proceed

/-- `user_prices`: only checks `self._auth is None`. -/
def user_prices_guard (c : FrankEnergie) : PreflightResult :=
  if c._auth.isNone then .raiseAuthRequired none else .proceed

/-- `period_usage_and_costs`: `if not site_reference` raises a `ValueError`
first, then `if self._auth is None` raises `AuthRequiredException` with a
Dutch message. -/
def period_usage_and_costs_guard (c : FrankEnergie) (site_reference : String) :
    PreflightResult :=
  if site_reference = "" then .raiseValueError "De 'site_reference' mag niet leeg zijn."
  else if c._auth.isNone then
    .raiseAuthRequired (some "Authenticatie is vereist om deze query uit te voeren.")
  else .proceed

/-- `smart_batteries`: only checks `self._auth is None` (bare raise). -/
def smart_batteries_guard (c : FrankEnergie) : PreflightResult :=
  if c._auth.isNone then .raiseAuthRequired none else .proceed

/-- `smart_battery_details`: auth check first (bare raise), then
`if not device_id` raises a `ValueError`. -/
def smart_battery_details_guard (c : FrankEnergie) (device_id : String) :
    PreflightResult :=
  if c._auth.isNone then .raiseAuthRequired none
  else if device_id = "" then
    .raiseValueError "Missing required device_id for smart_battery_sessions"
  else .proceed

/-- `smart_battery_sessions`: same shape as `smart_battery_details`. -/
def smart_battery_sessions_guard (c : FrankEnergie) (device_id : String) :
    PreflightResult :=
  if c._auth.isNone then .raiseAuthRequired none
  else if device_id = "" then
    .raiseValueError "Missing required device_id for smart_battery_sessions"
  else .proceed

/-! ## Partial-failure-tolerant operations (`enode_chargers`, `smart_batteries`)

The two functions below are the bodies of those operations after their
authentication guard (the guards are the functions above).  Model
deserialization (`EnodeChargers.from_dict`, `SmartBattery.from_dict`) lives in
the external `models` module, so it is a parameter. -/

/-- The body of `enode_chargers` after its guard: everything, the `_query`
call included, sits inside `try: ... except Exception: return {}`.  The
`Option α` result is `none` for the empty `{}` returns and `some` for a parsed
charger collection.  (The intermediate `len(chargers_data)` logging call can
itself raise inside the `try`; any such raise is absorbed by the same
catch-all.) -/
def enode_chargers_run (α : Type) (outcome : TransportOutcome)
    (from_dict : JValue → Except PyExc α) : Except PyExc (Option α) :=
  let inner : Except PyExc (Option α) :=
    match runQuery outcome with
    | .error e => .error e
    | .ok response =>
      match response.data with
      | none => .ok none
      | some .null => .ok none
      | some dv =>
        match objGet dv "enodeChargers" with
        | none => .ok none
        | some chargers_data => (from_dict chargers_data).map some
  match inner with
  | .error _ => .ok none
  | .ok r => .ok r

/-- Parse the battery list left to right with the external
`SmartBattery.from_dict`; the first raise aborts the comprehension. -/
def parseList {α : Type} (from_dict : JValue → Except PyExc α) :
    List JValue → Except PyExc (List α)
  | [] => .ok []
  | x :: xs =>
    match from_dict x with
    | .error e => .error e
    | .ok b =>
      match parseList from_dict xs with
      | .error e => .error e
      | .ok bs => .ok (b :: bs)

/-- The exception tuple of `except (KeyError, ValueError, TypeError)` around
the battery-parsing comprehension. -/
def isCatchableParseErr : PyExc → Bool
  | .keyError => true
  | .valueError _ => true
  | .typeError => true
  | _ => false

/-- The body of `smart_batteries` after its guard.  The `_query` call is NOT
inside any `try`, so a pipeline or classifier raise propagates; only the
battery-list comprehension is guarded, by
`except (KeyError, ValueError, TypeError): return SmartBatteries([])`.
`SmartBatteries(xs)` is represented by the plain list `xs`. -/
def smart_batteries_run (α : Type) (outcome : TransportOutcome)
    (from_dict : JValue → Except PyExc α) : Except PyExc (List α) :=
  match runQuery outcome with
  | .error e => .error e
  | .ok response =>
    if !(pyNonEmpty response) then .ok []
    else if (match response.errors with | some es => !es.isEmpty | none => false) then .ok []
    else if (match response.data with | none => true | some v => jFalsy v) then .ok []
    else
      match objGet ((response.data).getD .null) "smartBatteries" with
      | none => .ok []
      | some v =>
        if jFalsy v then .ok []
        else
          match v with
          | .list items =>
            match parseList from_dict items with
            | .ok bs => .ok bs
            | .error e => if isCatchableParseErr e then .ok [] else .error e
          | _ => .error .typeError

/-! ## Date-validation helpers -/

/-- A `datetime.date` value. -/
structure PDate where
  year : Nat
  month : Nat
  day : Nat
deriving DecidableEq

/-- Strict ordering on dates (`datetime.date` comparison). -/
def pdateLt (a b : PDate) : Bool :=
  if a.year < b.year then true
  else if b.year < a.year then false
  else if a.month < b.month then true
  else if b.month < a.month then false
  else decide (a.day < b.day)

/-- `_validate_not_future_date`: raise `ValueError` when the value is after
the current UTC date (`today` makes the clock reading explicit). -/
def _validate_not_future_date (today : PDate) (value : PDate) : Except PyExc Unit :=
  if pdateLt today value then
    .error (.valueError "De 'start_date' mag niet in de toekomst liggen.")
  else .ok ()

/-- Consume exactly `n` leading ASCII digits (the `\d{n}` pieces of the
pattern; Python's `\d` on these inputs is the ASCII digit class). -/
def takeDigits : Nat → List Char → Option (List Char)
  | 0, cs => some cs
  | _ + 1, [] => none
  | n + 1, c :: cs => if c.isDigit then takeDigits n cs else none

/-- Consume one `-\d{2}` group of the pattern. -/
def dashDigits2 (cs : List Char) : Option (List Char) :=
  match cs with
  | '-' :: rest => takeDigits 2 rest
  | _ => none

/-- Whole-string match of the regex `\d{4}(-\d{2}){0,2}` used by
`_validate_start_date_format` (each alternative consumes a fixed width, so the
match is deterministic). -/
def fullmatchDatePattern (s : String) : Bool :=
  match takeDigits 4 s.data with
  | none => false
  | some rest =>
    rest.isEmpty ||
      (match dashDigits2 rest with
       | none => false
       | some rest2 =>
         rest2.isEmpty ||
           (match dashDigits2 rest2 with
            | none => false
            | some rest3 => rest3.isEmpty))

/-- Numeric value of an ASCII digit. -/
def digitVal (c : Char) : Nat := c.toNat - '0'.toNat

/-- Days in a month, Gregorian rules (as `datetime.date` enforces). -/
def isLeapYear (y : Nat) : Bool := y % 4 == 0 && (y % 100 != 0 || y % 400 == 0)

def daysInMonth (y m : Nat) : Nat :=
  if m = 2 then (if isLeapYear y then 29 else 28)
  else if m = 4 ∨ m = 6 ∨ m = 9 ∨ m = 11 then 30
  else 31

/-- `datetime.strptime(s, "%Y-%m-%d").date()` on a 10-character candidate:
four digits, dash, two digits, dash, two digits, and the fields must form a
real calendar date (`datetime` requires year ≥ 1); `none` models the
`ValueError` raise. -/
def parseYMD (s : String) : Option PDate :=
  match s.data with
  | [y1, y2, y3, y4, c1, m1, m2, c2, d1, d2] =>
    if y1.isDigit && y2.isDigit && y3.isDigit && y4.isDigit && (c1 == '-') &&
        m1.isDigit && m2.isDigit && (c2 == '-') && d1.isDigit && d2.isDigit then
      let y := ((digitVal y1 * 10 + digitVal y2) * 10 + digitVal y3) * 10 + digitVal y4
      let m := digitVal m1 * 10 + digitVal m2
      let d := digitVal d1 * 10 + digitVal d2
      if 1 ≤ y ∧ 1 ≤ m ∧ m ≤ 12 ∧ 1 ≤ d ∧ d ≤ daysInMonth y m then some ⟨y, m, d⟩
      else none
    else none
  | _ => none

/-- The `ValueError`-class failures of `_validate_start_date_format`:
`badPattern` is the raise after the regex test, and `wrappedInvalid` is the
re-raise from `except ValueError`, which wraps both a `strptime` failure
(`fromFutureCheck = false`) and the explicit future-date raise inside the
`try` (`fromFutureCheck = true`) in the same "geen geldig datumformaat"
message. -/
inductive DateFormatError where
  | badPattern
  | wrappedInvalid (fromFutureCheck : Bool)
deriving DecidableEq

/-- `_validate_start_date_format` on a string argument (a `date` argument is
first converted to its 10-character ISO form and then follows the same path).
`today` is the current UTC date. -/
def _validate_start_date_format (today : PDate) (start_date : String) :
    Except DateFormatError Unit :=
  if !(fullmatchDatePattern start_date) then .error .badPattern
  else if start_date.length = 10 then
    match parseYMD start_date with
    | none => .error (.wrappedInvalid false)
    | some date_obj =>
      if pdateLt today date_obj then .error (.wrappedInvalid true)
      else .ok ()
  else .ok ()

/-! ## Helper lemmas -/

/-- A message with the market-prices prefix reaches the fifth arm of the
classifier chain (it cannot equal any of the four exact matches before it). -/
lemma classifyMessage_marketprices (m : String)
    (h : startswith m "No marketprices found for segment" = true) :
    classifyMessage m = .earlyReturn := by
  have h1 : m ≠ "user-error:password-invalid" := by rintro rfl; exact absurd h (by decide)
  have h2 : m ≠ "user-error:auth-not-authorised" := by rintro rfl; exact absurd h (by decide)
  have h3 : m ≠ "user-error:auth-required" := by rintro rfl; exact absurd h (by decide)
  have h4 : m ≠ "Graphql validation error" := by rintro rfl; exact absurd h (by decide)
  simp [classifyMessage, h1, h2, h3, h4, h]

/-- `_ensure_session` does nothing when a session is already stored. -/
lemma ensure_session_fixed (c : FrankEnergie) (h : c._session.isSome = true) :
    c.ensure_session = c := by
  unfold FrankEnergie.ensure_session
  cases hc : c._session with
  | none => rw [hc] at h; simp at h
  | some s => simp [hc]

/-- C1: the claim says a non-2xx HTTP status is mapped to its per-status
exception (401 to AuthRequiredException, 403/500/other to AuthException, 400 to
RequestException) while timeouts and connection failures become NetworkError.
In the source the first `except` clause `(asyncio.TimeoutError, ClientError,
KeyError)` already catches `aiohttp.ClientResponseError` (a `ClientError`
subclass), so EVERY non-2xx status is re-raised as `NetworkError` and the
status-mapping branches are unreachable: at status 401 the pipeline raises
`NetworkError`, not `AuthRequiredException`. -/
theorem query_status_mapping_shadowed :
    ∀ s : Nat,
      runQuery (.raised (.clientResponseError s))
          = .error (.networkError (.clientResponseError s))
      ∧ runQuery (.raised .timeoutError) = .error (.networkError .timeoutError)
      ∧ runQuery (.raised .clientConnectionError) = .error (.networkError .clientConnectionError)
      ∧ runQuery (.raised (.clientResponseError 401))
          ≠ .error (.authRequiredException "Authentication required.") := by
  intro s
  refine ⟨by simp [runQuery, translateRaised, inFirstExceptTuple], rfl, rfl, ?_⟩
  intro h
  injection h with h2
  exact PyExc.noConfusion h2

/-- C2: the claim says `sanitize_query` masks the password in its returned
copy (true) and leaves the query object's own variables — and hence the later
transmitted payload — unchanged (false).  Because `to_dict` aliases
`self.variables`, masking the copy also rewrites the query object: after the
call, the query's variables and its next `to_dict()` payload carry `"****"`
instead of the real password. -/
theorem sanitize_query_mutates_shared_variables :
    (sanitize_query ⟨"LOGIN_QUERY", "Login", [("email", some "u"), ("password", some "secret")]⟩).1.vars
        = [("email", some "u"), ("password", some "****")]
    ∧ (sanitize_query ⟨"LOGIN_QUERY", "Login", [("email", some "u"), ("password", some "secret")]⟩).2.vars
        = [("email", some "u"), ("password", some "****")]
    ∧ (sanitize_query ⟨"LOGIN_QUERY", "Login", [("email", some "u"), ("password", some "secret")]⟩).2.to_dict.vars
        ≠ [("email", some "u"), ("password", some "secret")] := by
  refine ⟨by decide, by decide, by decide⟩

/-- C6: a session supplied by the caller is never closed on shutdown (however
often the lazy `_ensure_session` ran in between), while an internally created
session is closed by `__aexit__`.  The `close` method itself is modelled from
the spec (its definition is outside the extracted source). -/
theorem session_ownership :
    ∀ (s : ClientSession) (a r : Option String) (n : Nat),
      ((FrankEnergie.ensure_session)^[n] (FrankEnergie.init (some s) a r)).aexit.2 = false
      ∧ ((FrankEnergie.init none a r).ensure_session).aexit.2 = true := by
  intro s a r n
  constructor
  · have hfix : (FrankEnergie.init (some s) a r).ensure_session
        = FrankEnergie.init (some s) a r :=
      ensure_session_fixed _ (by simp [FrankEnergie.init])
    rw [Function.iterate_fixed hfix n]
    simp [FrankEnergie.aexit, FrankEnergie.close, FrankEnergie.init]
  · simp [FrankEnergie.aexit, FrankEnergie.close, FrankEnergie.init,
      FrankEnergie.ensure_session]

/-- C7: an envelope whose single error entry is `user-error:auth-required`
makes the classifier raise `AuthRequiredException` (and the pipeline then
returns no envelope), while a single entry whose message starts with
`No marketprices found for segment` makes the classifier return normally. -/
theorem classifier_auth_required_and_marketprices :
    ∀ (m : String) (p q : Option (List String)),
      startswith m "No marketprices found for segment" = true →
      _handle_errors ⟨none, some [⟨some m, p⟩], false⟩ = .returnsNormally
      ∧ _handle_errors ⟨none, some [⟨some "user-error:auth-required", q⟩], false⟩
          = .raises (.authRequiredException "Authentication required")
      ∧ runQuery (.body ⟨none, some [⟨some "user-error:auth-required", q⟩], false⟩)
          = .error (.authRequiredException "Authentication required") := by
  intro m p q h
  refine ⟨?_, rfl, rfl⟩
  simp [_handle_errors, pyNonEmpty, handleLoop, classifyMessage_marketprices m h]

/-- Witness for C7 at a concrete message. -/
theorem classifier_auth_required_and_marketprices_witness :
    startswith "No marketprices found for segment ELECTRICITY"
        "No marketprices found for segment" = true
    ∧ _handle_errors
        ⟨none, some [⟨some "No marketprices found for segment ELECTRICITY", none⟩], false⟩
        = .returnsNormally := by
  refine ⟨by decide, ?_⟩
  exact (classifier_auth_required_and_marketprices
    "No marketprices found for segment ELECTRICITY" none none (by decide)).1

/-- C10: whenever the classifier's key lookup fails (`error["message"]` raises
`KeyError` because the entry reached has no `message` key), the pipeline's
first `except` clause absorbs it and re-raises `NetworkError` — the caller
sees neither a classification exception nor the parsed envelope.  The second
conjunct shows a single message-less entry makes the classifier raise exactly
that `KeyError`. -/
theorem missing_message_key_maps_to_networkError :
    (∀ body : Envelope, pyNonEmpty body = true →
        _handle_errors body = .raises .keyError →
        runQuery (.body body) = .error (.networkError .keyError))
    ∧ _handle_errors ⟨none, some [⟨none, none⟩], false⟩ = .raises .keyError := by
  refine ⟨?_, rfl⟩
  intro body h1 h2
  simp [runQuery, h1, h2, translateRaised, inFirstExceptTuple]

/-- Witness for C10 at the concrete message-less envelope. -/
theorem missing_message_key_maps_to_networkError_witness :
    pyNonEmpty ⟨none, some [⟨none, none⟩], false⟩ = true
    ∧ _handle_errors ⟨none, some [⟨none, none⟩], false⟩ = .raises .keyError
    ∧ runQuery (.body ⟨none, some [⟨none, none⟩], false⟩)
        = .error (.networkError .keyError) := by
  refine ⟨rfl, rfl, ?_⟩
  exact missing_message_key_maps_to_networkError.1 _ rfl rfl

/-- C3 counterexample: two unauthenticated clients for which an
authentication-requiring operation does NOT raise `AuthRequiredException`
before the network call.  `enode_chargers` returns `{}` instead of raising,
and `me` — whose guard only tests `self._auth is None` — proceeds to the
network for a client that holds credentials with a null access token (not
authenticated under the claim's own definition). -/
theorem auth_guard_counterexample :
    enode_chargers_guard (FrankEnergie.init none none none) = .returnEmptyDict
    ∧ (FrankEnergie.init none none (some "r")).is_authenticated = false
    ∧ me_guard (FrankEnergie.init none none (some "r")) = .proceed := by
  decide

/-- C3 amended: before any network call, a client that is not authenticated is
handled as follows — the four operations checking full authentication
(`renew_token`, `meter_readings`, `month_summary`, `invoices`) raise
`AuthRequiredException`, `enode_chargers` instead returns an empty dict, and
the remaining credential-guarded operations raise `AuthRequiredException` only
in the stronger case that credentials are absent entirely (`_auth is None`);
`period_usage_and_costs` additionally requires a non-empty site reference,
whose `ValueError` check runs first. -/
theorem auth_guards_amended :
    ∀ c : FrankEnergie, c.is_authenticated = false →
      (renew_token_guard c = .raiseAuthRequired (some "Authentication is required.")
       ∧ meter_readings_guard c = .raiseAuthRequired (some "Authentication is required.")
       ∧ month_summary_guard c = .raiseAuthRequired (some "Authentication is required.")
       ∧ invoices_guard c = .raiseAuthRequired (some "Authentication is required.")
       ∧ enode_chargers_guard c = .returnEmptyDict)
      ∧ (c._auth = none →
         me_guard c = .raiseAuthRequired none
         ∧ UserSites_guard c = .raiseAuthRequired none
         ∧ user_country_guard c = .raiseAuthRequired none
         ∧ user_guard c = .raiseAuthRequired none
         ∧ user_prices_guard c = .raiseAuthRequired none
         ∧ smart_batteries_guard c = .raiseAuthRequired none
         ∧ (∀ d, smart_battery_details_guard c d = .raiseAuthRequired none)
         ∧ (∀ d, smart_battery_sessions_guard c d = .raiseAuthRequired none)
         ∧ (∀ site, site ≠ "" →
             period_usage_and_costs_guard c site
               = .raiseAuthRequired (some "Authenticatie is vereist om deze query uit te voeren."))) := by
  intro c h
  constructor
  · simp [renew_token_guard, meter_readings_guard, month_summary_guard, invoices_guard,
      enode_chargers_guard, h]
  · intro ha
    have hn : c._auth.isNone = true := by simp [ha]
    refine ⟨by simp [me_guard, hn], by simp [UserSites_guard, hn],
      by simp [user_country_guard, hn], by simp [user_guard, hn],
      by simp [user_prices_guard, hn], by simp [smart_batteries_guard, hn],
      fun d => by simp [smart_battery_details_guard, hn],
      fun d => by simp [smart_battery_sessions_guard, hn],
      fun site hs => by simp [period_usage_and_costs_guard, hs, hn]⟩

/-- Witness for C3's amended statement at a concrete, credential-less client. -/
theorem auth_guards_amended_witness :
    renew_token_guard (FrankEnergie.init none none none)
        = .raiseAuthRequired (some "Authentication is required.")
    ∧ enode_chargers_guard (FrankEnergie.init none none none) = .returnEmptyDict
    ∧ me_guard (FrankEnergie.init none none none) = .raiseAuthRequired none
    ∧ period_usage_and_costs_guard (FrankEnergie.init none none none) "SITE-1"
        = .raiseAuthRequired (some "Authenticatie is vereist om deze query uit te voeren.") := by
  have h := auth_guards_amended (FrankEnergie.init none none none) (by decide)
  have h2 := h.2 (by decide)
  exact ⟨h.1.1, h.1.2.2.2.2, h2.1,
    h2.2.2.2.2.2.2.2.2 "SITE-1" (by decide)⟩

/-- C4 counterexample: in an envelope whose first error entry carries the
market-prices-segment message and whose second entry is the raising
`user-error:auth-required`, the classifier returns normally — the swallowed
first entry did NOT let classification continue to the second entry (the
`return` statement ends the whole loop). -/
theorem marketprices_entry_stops_classification :
    _handle_errors ⟨none, some [⟨some "No marketprices found for segment GAS", none⟩,
        ⟨some "user-error:auth-required", none⟩], false⟩ = .returnsNormally
    ∧ _handle_errors ⟨none, some [⟨some "No marketprices found for segment GAS", none⟩,
        ⟨some "user-error:auth-required", none⟩], false⟩
        ≠ .raises (.authRequiredException "Authentication required") := by
  refine ⟨by decide, by decide⟩

/-- C4 amended: classification follows array order; an entry that raises
aborts immediately with that exception; a merely-logged entry (the Dutch
`'Base'` message, or any unhandled message) lets classification continue with
the next entries; but the swallowed market-prices-segment entry terminates
classification immediately by returning normally, skipping all later
entries. -/
theorem classification_order_amended :
    ∀ (m : String) (p : Option (List String)) (rest : List ErrorEntry),
      startswith m "No marketprices found for segment" = true →
      handleLoop (⟨some m, p⟩ :: rest) = .returnsNormally
      ∧ (∀ p2, handleLoop (⟨some "'Base' niet aanwezig in prijzen verzameling", p2⟩ :: rest)
          = handleLoop rest)
      ∧ (∀ (m2 : String) (p3 : Option (List String)), classifyMessage m2 = .continueLoop →
          handleLoop (⟨some m2, p3⟩ :: rest) = handleLoop rest)
      ∧ (∀ (m3 : String) (p4 : Option (List String)) (e : PyExc),
          classifyMessage m3 = .raiseExc e →
          handleLoop (⟨some m3, p4⟩ :: rest) = .raises e)
      ∧ handleLoop (⟨some "unrecognised upstream failure", none⟩ ::
          ⟨some "user-error:auth-required", none⟩ :: rest)
          = .raises (.authRequiredException "Authentication required") := by
  intro m p rest h
  have hbase : classifyMessage "'Base' niet aanwezig in prijzen verzameling" = .continueLoop := by
    decide
  have hunk : classifyMessage "unrecognised upstream failure" = .continueLoop := by decide
  have hauth : classifyMessage "user-error:auth-required"
      = .raiseExc (.authRequiredException "Authentication required") := by decide
  refine ⟨by simp [handleLoop, classifyMessage_marketprices m h],
    fun p2 => by simp [handleLoop, hbase],
    fun m2 p3 hc => by simp [handleLoop, hc],
    fun m3 p4 e hr => by simp [handleLoop, hr],
    by simp [handleLoop, hunk, hauth]⟩

/-- Witness for C4's amended statement at concrete entries. -/
theorem classification_order_amended_witness :
    handleLoop [⟨some "No marketprices found for segment GAS", none⟩] = .returnsNormally
    ∧ handleLoop [⟨some "'Base' niet aanwezig in prijzen verzameling", none⟩] = handleLoop []
    ∧ handleLoop [⟨some "unrecognised upstream failure", none⟩,
        ⟨some "user-error:auth-required", none⟩]
        = .raises (.authRequiredException "Authentication required") := by
  have h := classification_order_amended "No marketprices found for segment GAS" none []
    (by decide)
  exact ⟨h.1, h.2.1 none, h.2.2.2.2⟩

/-- C5 counterexample: a classifier failure during `smart_batteries` is NOT
caught: with an envelope carrying the raising `user-error:auth-required`
message, the exception propagates to the caller instead of an empty result
being returned (the `_query` call of `smart_batteries` sits outside its
`try`). -/
theorem smart_batteries_classifier_error_propagates :
    smart_batteries_run Unit
        (.body ⟨none, some [⟨some "user-error:auth-required", none⟩], false⟩)
        (fun _ => .ok ())
        = .error (.authRequiredException "Authentication required")
    ∧ smart_batteries_run Unit
        (.body ⟨none, some [⟨some "user-error:auth-required", none⟩], false⟩)
        (fun _ => .ok ()) ≠ .ok [] := by
  refine ⟨rfl, fun h => Except.noConfusion h⟩

/-- The catch-all shape of `enode_chargers`: whatever its protected block
produced, the method returns `ok`. -/
lemma exceptOptionMatchOk {α : Type} (x : Except PyExc (Option α)) :
    ∃ r : Option α, (match x with
          | .error _ => (Except.ok none : Except PyExc (Option α))
          | .ok v => Except.ok v) = .ok r := by
  cases x with
  | error e => exact ⟨none, rfl⟩
  | ok v => exact ⟨v, rfl⟩

/-- C5 amended: `enode_chargers` catches every pipeline, classifier or
deserialization failure and returns an empty/default result (it never
propagates an exception); `smart_batteries` catches only deserialization
failures of the kinds `KeyError`/`ValueError`/`TypeError` arising while
parsing the battery list (returning an empty collection for those), while a
classifier failure raised inside `_query` propagates to the caller. -/
theorem partial_failure_policy_amended :
    (∀ (α : Type) (outcome : TransportOutcome) (from_dict : JValue → Except PyExc α),
       ∃ r, enode_chargers_run α outcome from_dict = .ok r)
    ∧ (∀ (α : Type) (e : PyExc), isCatchableParseErr e = true →
        smart_batteries_run α
          (.body ⟨some (.obj [("smartBatteries", .list [.obj [("id", .str "b1")]])]),
            none, false⟩)
          (fun _ => .error e) = .ok [])
    ∧ (∀ (α : Type) (from_dict : JValue → Except PyExc α) (body : Envelope),
        pyNonEmpty body = true →
        _handle_errors body = .raises (.authRequiredException "Authentication required") →
        smart_batteries_run α (.body body) from_dict
          = .error (.authRequiredException "Authentication required")) := by
  refine ⟨?_, ?_, ?_⟩
  · intro α outcome from_dict
    unfold enode_chargers_run
    exact exceptOptionMatchOk _
  · intro α e he
    simp [smart_batteries_run, runQuery, _handle_errors, pyNonEmpty, jFalsy, objGet,
      dictGet, parseList, he]
  · intro α from_dict body h1 h2
    simp [smart_batteries_run, runQuery, h1, h2, translateRaised, inFirstExceptTuple]

/-- Witness for C5's amended statement at concrete inputs. -/
theorem partial_failure_policy_amended_witness :
    (∃ r, enode_chargers_run Unit
        (.body ⟨none, some [⟨some "user-error:auth-required", none⟩], false⟩)
        (fun _ => .ok ()) = .ok r)
    ∧ smart_batteries_run Unit
        (.body ⟨some (.obj [("smartBatteries", .list [.obj [("id", .str "b1")]])]),
          none, false⟩)
        (fun _ => .error .keyError) = .ok []
    ∧ smart_batteries_run Unit
        (.body ⟨none, some [⟨some "user-error:auth-required", none⟩], false⟩)
        (fun _ => .ok ())
        = .error (.authRequiredException "Authentication required") := by
  exact ⟨partial_failure_policy_amended.1 Unit _ _,
    partial_failure_policy_amended.2.1 Unit .keyError (by decide),
    partial_failure_policy_amended.2.2 Unit _ _ rfl rfl⟩

/-- Effect of one dict update on a later lookup. -/
lemma dictGet_dictSet {β : Type} (d : List (String × β)) (k k' : String) (v : β) :
    dictGet (dictSet d k v) k' = if k = k' then some v else dictGet d k' := by
  induction d with
  | nil => simp [dictSet, dictGet]
  | cons kv rest ih =>
    by_cases h : kv.1 = k
    · simp only [dictSet, if_pos h]
      by_cases h2 : k = k'
      · simp [dictGet, h2]
      · simp [dictGet, h2, h]
    · simp only [dictSet, if_neg h]
      by_cases h2 : kv.1 = k'
      · have h3 : k ≠ k' := by intro he; subst he; exact h h2
        simp [dictGet, h2, h3]
      · simp [dictGet, h2, ih]

/-- Effect of a whole `dict.update` pass: the last binding of the update wins,
otherwise the original dict answers. -/
lemma dictGet_foldl_dictSet (ex : List (String × String)) (h : List (String × String))
    (k : String) :
    dictGet (ex.foldl (fun acc kv => dictSet acc kv.1 kv.2) h) k
      = match lastGet ex k with
        | some v => some v
        | none => dictGet h k := by
  induction ex generalizing h with
  | nil => simp [lastGet]
  | cons kv rest ih =>
    simp only [List.foldl_cons]
    rw [ih]
    cases hr : lastGet rest k with
    | some v => simp [lastGet, hr]
    | none =>
      simp only [lastGet, hr]
      rw [dictGet_dictSet]
      by_cases hk : kv.1 = k
      · simp [hk]
      · simp [hk]

lemma baseAndAuthHeaders_ct (auth : Option Authentication) :
    dictGet (baseAndAuthHeaders auth) "Content-Type" = some "application/json" := by
  cases auth with
  | none => rfl
  | some a =>
    rcases a with ⟨tok, rtok⟩
    cases tok with
    | none => rfl
    | some t => rfl

lemma baseAndAuthHeaders_accept (auth : Option Authentication) :
    dictGet (baseAndAuthHeaders auth) "Accept" = some "application/json" := by
  cases auth with
  | none => rfl
  | some a =>
    rcases a with ⟨tok, rtok⟩
    cases tok with
    | none => rfl
    | some t => rfl

lemma baseAndAuthHeaders_authorization (auth : Option Authentication) :
    dictGet (baseAndAuthHeaders auth) "Authorization"
      = Option.map (fun tok => "Bearer " ++ tok) (auth.bind fun a => a.authToken) := by
  cases auth with
  | none => rfl
  | some a =>
    rcases a with ⟨tok, rtok⟩
    cases tok with
    | none => rfl
    | some t => rfl

/-- When `extra_headers` does not bind `k`, the update leaves `k`'s value as
the base-and-bearer headers had it. -/
lemma composeHeaders_get_of_not_bound (auth : Option Authentication)
    (extra : Option (List (String × String))) (k : String)
    (hb : extraBinds extra k = false) :
    dictGet (composeHeaders auth extra) k = dictGet (baseAndAuthHeaders auth) k := by
  cases extra with
  | none => rfl
  | some ex =>
    cases ex with
    | nil => rfl
    | cons kv rest =>
      have hl : lastGet (kv :: rest) k = none := by
        cases hx : lastGet (kv :: rest) k with
        | none => rfl
        | some v => simp [extraBinds, hx] at hb
      simp only [composeHeaders]
      rw [if_neg (by simp), dictGet_foldl_dictSet, hl]

/-- C8 counterexample: with `extra_headers = {"Accept": "text/plain"}` the
composed headers do NOT contain `Accept: application/json` — the fixed JSON
headers are not invariably present, because the claim's own override rule
rewrites them. -/
theorem composeHeaders_override_counterexample :
    dictGet (composeHeaders none (some [("Accept", "text/plain")])) "Accept"
        = some "text/plain"
    ∧ dictGet (composeHeaders none (some [("Accept", "text/plain")])) "Accept"
        ≠ some "application/json" := by
  refine ⟨by decide, by decide⟩

/-- C8 amended: the composed headers carry `Content-Type: application/json`
and `Accept: application/json` whenever `extra_headers` does not bind those
keys; whenever `extra_headers` does not bind `Authorization`, the headers
carry `Authorization: Bearer <accessToken>` iff an access token is present;
and `extra_headers` entries are applied last, overriding same-named
headers. -/
theorem composeHeaders_amended :
    ∀ (auth : Option Authentication) (extra : Option (List (String × String))),
      (extraBinds extra "Content-Type" = false →
        dictGet (composeHeaders auth extra) "Content-Type" = some "application/json")
      ∧ (extraBinds extra "Accept" = false →
        dictGet (composeHeaders auth extra) "Accept" = some "application/json")
      ∧ (extraBinds extra "Authorization" = false →
        dictGet (composeHeaders auth extra) "Authorization"
          = Option.map (fun tok => "Bearer " ++ tok) (auth.bind fun a => a.authToken))
      ∧ (∀ (ex : List (String × String)) (k v : String),
          extra = some ex → lastGet ex k = some v →
          dictGet (composeHeaders auth extra) k = some v) := by
  intro auth extra
  refine ⟨fun hb => ?_, fun hb => ?_, fun hb => ?_, fun ex k v he hv => ?_⟩
  · rw [composeHeaders_get_of_not_bound auth extra _ hb, baseAndAuthHeaders_ct]
  · rw [composeHeaders_get_of_not_bound auth extra _ hb, baseAndAuthHeaders_accept]
  · rw [composeHeaders_get_of_not_bound auth extra _ hb, baseAndAuthHeaders_authorization]
  · subst he
    cases ex with
    | nil => simp [lastGet] at hv
    | cons kv rest =>
      simp only [composeHeaders]
      rw [if_neg (by simp), dictGet_foldl_dictSet, hv]

/-- Witness for C8's amended statement: a bearer client sending the Belgian
country-routing header. -/
theorem composeHeaders_amended_witness :
    dictGet (composeHeaders (some ⟨some "TOKEN", none⟩) (some [("x-country", "BE")]))
        "Content-Type" = some "application/json"
    ∧ dictGet (composeHeaders (some ⟨some "TOKEN", none⟩) (some [("x-country", "BE")]))
        "Authorization" = some "Bearer TOKEN"
    ∧ dictGet (composeHeaders (some ⟨some "TOKEN", none⟩) (some [("x-country", "BE")]))
        "x-country" = some "BE" := by
  have h := composeHeaders_amended (some ⟨some "TOKEN", none⟩) (some [("x-country", "BE")])
  exact ⟨h.1 (by decide), (h.2.2.1 (by decide)).trans (by decide),
    h.2.2.2 [("x-country", "BE")] "x-country" "BE" rfl (by decide)⟩

/-- C9: the date-format helper rejects exactly the strings outside the regex
`\d{4}(-\d{2}){0,2}` with its `ValueError`; every matching string that is not
10 characters long passes; `"2023"`, `"2023-02"` pass for any clock, and
`"bad-date"` fails; a matching 10-character string must additionally be a real
calendar date, and `"2023-02-15"` passes exactly when it is not after the
current UTC date while `"2099-01-01"` raises the `ValueError`-class error
whenever the current date lies before it. -/
theorem validate_start_date_format_spec :
    ∀ (today : PDate) (s : String),
      (fullmatchDatePattern s = false →
        _validate_start_date_format today s = .error .badPattern)
      ∧ (fullmatchDatePattern s = true → s.length ≠ 10 →
        _validate_start_date_format today s = .ok ())
      ∧ _validate_start_date_format today "2023" = .ok ()
      ∧ _validate_start_date_format today "2023-02" = .ok ()
      ∧ _validate_start_date_format today "bad-date" = .error .badPattern
      ∧ (pdateLt today ⟨2023, 2, 15⟩ = false →
        _validate_start_date_format today "2023-02-15" = .ok ())
      ∧ (pdateLt today ⟨2099, 1, 1⟩ = true →
        _validate_start_date_format today "2099-01-01" = .error (.wrappedInvalid true)) := by
  intro today s
  have hf1 : fullmatchDatePattern "2023-02-15" = true := by decide
  have hp1 : parseYMD "2023-02-15" = some ⟨2023, 2, 15⟩ := by decide
  have hf2 : fullmatchDatePattern "2099-01-01" = true := by decide
  have hp2 : parseYMD "2099-01-01" = some ⟨2099, 1, 1⟩ := by decide
  have hl1 : ("2023-02-15" : String).length = 10 := by decide
  have hl2 : ("2099-01-01" : String).length = 10 := by decide
  refine ⟨fun h => by simp [_validate_start_date_format, h],
    fun h hl => by simp [_validate_start_date_format, h, hl],
    rfl, rfl, rfl,
    fun h6 => ?_, fun h7 => ?_⟩
  · simp [_validate_start_date_format, hf1, hp1, hl1, h6]
  · simp [_validate_start_date_format, hf2, hp2, hl2, h7]

/-- Witness for C9 at the clock date 2025-10-12. -/
theorem validate_start_date_format_spec_witness :
    _validate_start_date_format ⟨2025, 10, 12⟩ "bad-date" = .error .badPattern
    ∧ fullmatchDatePattern "20" = false
    ∧ _validate_start_date_format ⟨2025, 10, 12⟩ "20" = .error .badPattern
    ∧ _validate_start_date_format ⟨2025, 10, 12⟩ "2023-02-15" = .ok ()
    ∧ _validate_start_date_format ⟨2025, 10, 12⟩ "2099-01-01"
        = .error (.wrappedInvalid true) := by
  refine ⟨(validate_start_date_format_spec ⟨2025, 10, 12⟩ "bad-date").2.2.2.2.1,
    by decide,
    (validate_start_date_format_spec ⟨2025, 10, 12⟩ "20").1 (by decide),
    (validate_start_date_format_spec ⟨2025, 10, 12⟩ "2023-02-15").2.2.2.2.2.1 (by decide),
    (validate_start_date_format_spec ⟨2025, 10, 12⟩ "2099-01-01").2.2.2.2.2.2 (by decide)⟩
